import Mathlib

/-!
Verification of the RadioStreamApp component (src/app/index.tsx).

The file shallowly embeds the component's state and its three handlers
(`fetchStations`, `playStation`, `togglePlayPause`, `stopPlayback`) as pure
state transformers.  The React `useState` fields become the `AppState`
record; the external audio backend (react-native-track-player) is modelled
as a queue of loaded tracks plus a playing flag.  Asynchronous backend
calls that may reject are modelled by an explicit outcome argument, and
rapid consecutive `playStation` calls are modelled by interleavings of the
atomic steps separated by the `await` suspension points.
-/

/-- A station record `{name, url}` as fetched from the catalog endpoint. -/
structure Station where
  name : String
  url : String
deriving DecidableEq

/-- A track object as passed to `TrackPlayer.add` by `playStation`. -/
structure Track where
  id : String
  url : String
  title : String
  artist : String
deriving DecidableEq

/-- Modelled from the spec: the external audio backend (the track-player
library, spec section 6) holds a queue of loaded tracks and a playing flag;
the loaded queue is the opaque backend handle of the spec. -/
structure PlayerState where
  queue : List Track
  playing : Bool
deriving DecidableEq

/-- The React component state of `RadioStreamApp`: the `useState` fields
`stations`, `loading`, `error` and `currentStation` (the rotating image
index is out of scope). -/
structure AppState where
  stations : List Station
  loading : Bool
  error : String
  currentStation : Option Nat
deriving DecidableEq

/-- The whole system state: component state plus backend player state. -/
structure SysState where
  app : AppState
  player : PlayerState
deriving DecidableEq

/-- Modelled from the spec: `TrackPlayer.reset` clears the loaded queue and
stops playback (releases the held resource). -/
def tpReset (_ : PlayerState) : PlayerState :=
  { queue := [], playing := false }

/-- Modelled from the spec: `TrackPlayer.add` appends a track to the queue
(acquires a resource bound to the track's url). -/
def tpAdd (p : PlayerState) (t : Track) : PlayerState :=
  { p with queue := p.queue ++ [t] }

/-- Modelled from the spec: `TrackPlayer.play` starts playback of the loaded
resource; with nothing loaded there is nothing to play and the call is a
no-op. -/
def tpPlay (p : PlayerState) : PlayerState :=
  { p with playing := !p.queue.isEmpty }

/-- Modelled from the spec: `TrackPlayer.pause` suspends playback. -/
def tpPause (p : PlayerState) : PlayerState :=
  { p with playing := false }

/-- Modelled from the spec: `TrackPlayer.stop` stops playback and releases
the loaded resource (spec sections 4.2 and 6). -/
def tpStop (_ : PlayerState) : PlayerState :=
  { queue := [], playing := false }

/-- The hard-coded fallback station list installed by the `catch` branch of
`fetchStations`. -/
def fallbackStations : List Station :=
  [{ name := "Sample Radio 1", url := "https://example.com/stream1" },
   { name := "Sample Radio 2", url := "https://example.com/stream2" }]

/-- The JavaScript expression `err.message || 'Failed to fetch stations'`:
an absent or empty message falls back to the constant string. -/
def errMessage : Option String → String
  | some msg => if msg = "" then "Failed to fetch stations" else msg
  | none => "Failed to fetch stations"

/-- Possible outcomes of the catalog fetch: a parsed JSON array, a payload
that is not an array (the code then throws `Invalid station format.`), or a
network/parse failure carrying the thrown error's optional message. -/
inductive FetchResult
  | success (data : List Station)
  | nonArrayPayload
  | failure (msg : Option String)
deriving DecidableEq

/-- The `fetchStations` async function of src/app/index.tsx as a state
transformer over the outcome of the fetch: on an array payload it stores the
array; otherwise it records an error message and installs the fallback list;
the `finally` block always clears the loading flag. -/
def fetchStations (st : AppState) (r : FetchResult) : AppState :=
  match r with
  | .success data =>
      { st with stations := data, loading := false }
  | .nonArrayPayload =>
      { st with stations := fallbackStations,
                error := errMessage (some "Invalid station format."),
                loading := false }
  | .failure msg =>
      { st with stations := fallbackStations,
                error := errMessage msg,
                loading := false }

/-- The subtitle text rendered under the title: `Loading...` while loading,
otherwise the station count followed by ` available`. -/
def subtitleText (st : AppState) : String :=
  if st.loading then "Loading..." else toString st.stations.length ++ " available"

/-- The error banner is rendered exactly when the error string is non-empty
(`error !== ''` in the source). -/
def errorVisible (st : AppState) : Bool :=
  st.error != ""

/-- The track object built by `playStation` from a station. -/
def stationTrack (s : Station) : Track :=
  { id := s.name, url := s.url, title := s.name, artist := "Live Stream" }

/-- Outcomes of the awaited backend calls inside `playStation`: every call
succeeds, or the promise of `reset`, `add`, or `play` rejects (the `catch`
block then only logs). -/
inductive PlayOutcome
  | ok
  | failReset
  | failAdd
  | failPlay
deriving DecidableEq

/-- The `playStation` handler of src/app/index.tsx: reset the player, add a
track for the chosen station, start playback, and on success record the
selected index; a rejection at any step is caught and only logged, leaving
the component state as it was at that point. -/
def playStation (st : SysState) (s : Station) (index : Nat) (o : PlayOutcome) : SysState :=
  match o with
  | .ok =>
      { app := { st.app with currentStation := some index },
        player := tpPlay (tpAdd (tpReset st.player) (stationTrack s)) }
  | .failReset => st
  | .failAdd => { st with player := tpReset st.player }
  | .failPlay => { st with player := tpAdd (tpReset st.player) (stationTrack s) }

/-- Outcome of the awaited backend calls inside `togglePlayPause`: the calls
succeed, or one of them rejects (there is no `catch`, so the component state
is untouched either way). -/
inductive CallOutcome
  | ok
  | fail
deriving DecidableEq

/-- The `togglePlayPause` handler of src/app/index.tsx: query the backend
state and pause when playing, otherwise call play; no guard for the idle
case and no error reporting. -/
def togglePlayPause (st : SysState) (o : CallOutcome) : SysState :=
  match o with
  | .fail => st
  | .ok =>
      if st.player.playing then { st with player := tpPause st.player }
      else { st with player := tpPlay st.player }

/-- The `stopPlayback` handler of the first variant (lines 96-99): stop the
backend and reset `currentStation` to null. -/
def stopPlayback (st : SysState) : SysState :=
  { app := { st.app with currentStation := none }, player := tpStop st.player }

/-- The `stopPlayback` handler of the second variant (lines 333-339): only
the backend stop call, `currentStation` is left as it is. -/
def stopPlaybackV2 (st : SysState) : SysState :=
  { st with player := tpStop st.player }

/-- The spec's handle invariant (section 3): the backend holds a resource
exactly when a station index is selected. -/
def handleInv (st : SysState) : Prop :=
  st.player.queue ≠ [] ↔ st.app.currentStation ≠ none

instance (st : SysState) : Decidable (handleInv st) := by
  unfold handleInv; infer_instance

/-- One atomic step of `playStation` between `await` suspension points. -/
inductive PlayStep
  | reset
  | add (s : Station)
  | play
  | setCurrent (i : Nat)
deriving DecidableEq

/-- Effect of one atomic `playStation` step on the system state. -/
def runStep (st : SysState) : PlayStep → SysState
  | .reset => { st with player := tpReset st.player }
  | .add s => { st with player := tpAdd st.player (stationTrack s) }
  | .play => { st with player := tpPlay st.player }
  | .setCurrent i => { st with app := { st.app with currentStation := some i } }

/-- Run a schedule of atomic steps from a state. -/
def runSteps (st : SysState) : List PlayStep → SysState
  | [] => st
  | step :: rest => runSteps (runStep st step) rest

/-- The atomic steps of one successful `playStation(s, i)` call, in program
order. -/
def playSteps (s : Station) (i : Nat) : List PlayStep :=
  [.reset, .add s, .play, .setCurrent i]

/-- `Interleave xs ys zs` holds when `zs` is an interleaving of `xs` and
`ys` that preserves the order within each. -/
inductive Interleave : List PlayStep → List PlayStep → List PlayStep → Prop
  | nil : Interleave [] [] []
  | left {x xs ys zs} : Interleave xs ys zs → Interleave (x :: xs) ys (x :: zs)
  | right {y xs ys zs} : Interleave xs ys zs → Interleave xs (y :: ys) (y :: zs)

/-- Example stations from the spec's scenario. -/
def stationA : Station := { name := "A", url := "u1" }

/-- Second example station from the spec's scenario. -/
def stationB : Station := { name := "B", url := "u2" }

/-- State right after a successful fetch of `[A, B]`, nothing selected. -/
def initState : SysState :=
  { app := { stations := [stationA, stationB], loading := false, error := "",
             currentStation := none },
    player := { queue := [], playing := false } }

/-- State with station 0 loaded and playing, no error recorded. -/
def playingState : SysState :=
  { app := { stations := [stationA, stationB], loading := false, error := "",
             currentStation := some 0 },
    player := { queue := [stationTrack stationA], playing := true } }

/-- State with station 0 loaded and a recorded error message. -/
def errorState : SysState :=
  { app := { stations := [stationA, stationB], loading := false, error := "boom",
             currentStation := some 0 },
    player := { queue := [stationTrack stationA], playing := true } }

/-- A schedule in which the second `playStation` call's reset runs before the
first call's add: both calls start, both resets run, then both adds queue
their tracks. -/
def raceSchedule : List PlayStep :=
  [.reset, .reset, .add stationA, .add stationB,
   .play, .setCurrent 0, .play, .setCurrent 1]

/-- C4 (confirmed): when the catalog fetch fails — a payload that is not an
array, or a network/parse failure with any (possibly absent or empty) error
message — the station list equals the hard-coded two-entry fallback list
with names `Sample Radio 1` and `Sample Radio 2`, and a non-empty error
message is recorded and the banner is shown. -/
theorem fetch_failure_fallback (st : AppState) (m : Option String) :
    ((fetchStations st .nonArrayPayload).stations = fallbackStations ∧
      (fetchStations st .nonArrayPayload).error ≠ "" ∧
      errorVisible (fetchStations st .nonArrayPayload) = true) ∧
    ((fetchStations st (.failure m)).stations = fallbackStations ∧
      (fetchStations st (.failure m)).error ≠ "" ∧
      errorVisible (fetchStations st (.failure m)) = true) ∧
    fallbackStations.map Station.name = ["Sample Radio 1", "Sample Radio 2"] := by
  have hmsg : errMessage m ≠ "" := by
    match m with
    | none => simp [errMessage]
    | some msg =>
      by_cases h : msg = "" <;> simp [errMessage, h]
  refine ⟨⟨rfl, by simp [fetchStations, errMessage], ?_⟩, ⟨rfl, hmsg, ?_⟩, rfl⟩
  · simp [errorVisible, fetchStations, errMessage]
  · simp [errorVisible, fetchStations, hmsg]

/-- C5 (confirmed): for every JSON array returned by the catalog endpoint,
the stored station list after the fetch has the array's length, and the
subtitle text displays exactly that length. -/
theorem fetch_success_count (st : AppState) (data : List Station) :
    (fetchStations st (.success data)).stations.length = data.length ∧
    subtitleText (fetchStations st (.success data)) =
      toString data.length ++ " available" := by
  exact ⟨rfl, rfl⟩

/-- C9 (confirmed): for every outcome of the catalog fetch, the loading
flag is false once `fetchStations` completes, so the loading indicator is
never shown indefinitely. -/
theorem fetch_clears_loading (st : AppState) (r : FetchResult) :
    (fetchStations st r).loading = false := by
  cases r <;> rfl

/-- C1 (counterexample): from a state with station 0 selected and no error,
a `playStation` call for station 1 whose `play` rejects leaves
`currentStation` at its old value (not null) and leaves the error string
empty: the controller neither enters an Idle-like state nor surfaces a
user-visible error. -/
theorem playStation_failure_not_idle_cex :
    (playStation playingState stationB 1 .failPlay).app.currentStation = some 0 ∧
    (playStation playingState stationB 1 .failPlay).app.currentStation ≠ none ∧
    (playStation playingState stationB 1 .failPlay).app.error = "" ∧
    (playStation playingState stationB 1 .failPlay).player.queue ≠ [] := by
  refine ⟨rfl, by decide, rfl, by decide⟩

/-- C1 (amended): when any backend call inside `playStation` rejects, the
`catch` block only logs: the whole component state — stations, loading,
error and `currentStation` — is unchanged; no error string is surfaced and
`currentStation` is not cleared (only the backend player state may have
changed partway). -/
theorem playStation_failure_leaves_app_unchanged (st : SysState) (s : Station) (i : Nat) :
    (playStation st s i .failReset).app = st.app ∧
    (playStation st s i .failAdd).app = st.app ∧
    (playStation st s i .failPlay).app = st.app := by
  exact ⟨rfl, rfl, rfl⟩

/-- C2 (counterexample): in the initial state where no station was ever
selected, `togglePlayPause` succeeds as a no-op: the state is completely
unchanged and the error string stays empty, so no user-visible
`PlaybackError` is produced. -/
theorem togglePlayPause_idle_no_error_cex :
    togglePlayPause initState .ok = initState ∧
    (togglePlayPause initState .ok).app.error = "" ∧
    errorVisible (togglePlayPause initState .ok).app = false := by
  refine ⟨by decide, rfl, by decide⟩

/-- C2 (amended): `togglePlayPause` called with no station ever selected
(empty backend queue, not playing) performs no state change, but it reports
no error at all: it has no guard for the idle case and unconditionally
invokes the backend play primitive, which with an empty queue has no
effect. -/
theorem togglePlayPause_idle_noop_no_error (a : AppState) :
    togglePlayPause ⟨a, ⟨[], false⟩⟩ .ok = ⟨a, ⟨[], false⟩⟩ ∧
    (togglePlayPause ⟨a, ⟨[], false⟩⟩ .ok).app.error = a.error := by
  exact ⟨rfl, rfl⟩

/-- C3 (counterexample): from a state with a recorded error message `boom`
and station 0 selected, `stopPlayback` leaves the error message in place
(the banner stays visible), and the second variant's `stopPlayback` does
not even clear `currentStation`. -/
theorem stopPlayback_keeps_error_cex :
    (stopPlayback errorState).app.error = "boom" ∧
    (stopPlayback errorState).app.error ≠ "" ∧
    errorVisible (stopPlayback errorState).app = true ∧
    (stopPlaybackV2 errorState).app.currentStation = some 0 := by
  refine ⟨rfl, by decide, by decide, rfl⟩

/-- C3 (amended): `stopPlayback` releases the backend resource and stops
playback, and in the first variant clears `currentStation`; but it never
clears the error message, and the second variant does not clear
`currentStation` either. -/
theorem stopPlayback_releases_not_error (st : SysState) :
    (stopPlayback st).player.queue = [] ∧
    (stopPlayback st).player.playing = false ∧
    (stopPlayback st).app.currentStation = none ∧
    (stopPlayback st).app.error = st.app.error ∧
    (stopPlayback st).app.stations = st.app.stations ∧
    (stopPlaybackV2 st).player.queue = [] ∧
    (stopPlaybackV2 st).app = st.app := by
  exact ⟨rfl, rfl, rfl, rfl, rfl, rfl, rfl⟩

/-- C6 (counterexample): the handle invariant holds in the initial state,
but a first `playStation` whose `play` call rejects after the track was
added breaks it: the backend then holds a resource while `currentStation`
is still null. -/
theorem handle_invariant_broken_cex :
    handleInv initState ∧
    ¬ handleInv (playStation initState stationA 0 .failPlay) := by
  exact ⟨by decide, by decide⟩

/-- C6 (amended): the invariant `backend queue non-empty iff currentStation
non-null` is preserved by every successful `playStation`, by
`togglePlayPause` with either outcome, and by `stopPlayback`; it is not
preserved by a failing `playStation`. -/
theorem handle_invariant_preserved_on_success (st : SysState) (s : Station) (i : Nat)
    (o : CallOutcome) (h : handleInv st) :
    handleInv (playStation st s i .ok) ∧
    handleInv (togglePlayPause st o) ∧
    handleInv (stopPlayback st) := by
  refine ⟨?_, ?_, ?_⟩
  · simp [handleInv, playStation, tpPlay, tpAdd, tpReset, stationTrack]
  · cases o with
    | fail => exact h
    | ok =>
      simp only [handleInv] at h ⊢
      by_cases hp : st.player.playing = true <;>
        simp [togglePlayPause, hp, tpPause, tpPlay, h]
  · simp [handleInv, stopPlayback, tpStop]

/-- C6 (witness): the amended invariant preservation applied in the initial
state, with station A at index 0 and a successful toggle. -/
theorem handle_invariant_preserved_witness :
    handleInv initState ∧
    (handleInv (playStation initState stationA 0 .ok) ∧
     handleInv (togglePlayPause initState .ok) ∧
     handleInv (stopPlayback initState)) :=
  ⟨by decide, handle_invariant_preserved_on_success initState stationA 0 .ok (by decide)⟩

/-- C7 (code bug, evaluated): there is an interleaving of the atomic steps
of `playStation(A, 0)` and `playStation(B, 1)` — both calls reset before
either adds its track — after which the backend holds two resources at
once: the track for A was queued after the second reset and is never
released, violating the at-most-one-resource property the spec demands. -/
theorem race_two_resources_held :
    Interleave (playSteps stationA 0) (playSteps stationB 1) raceSchedule ∧
    (runSteps initState raceSchedule).player.queue =
      [stationTrack stationA, stationTrack stationB] ∧
    (runSteps initState raceSchedule).app.currentStation = some 1 := by
  refine ⟨?_, rfl, rfl⟩
  show Interleave
    [.reset, .add stationA, .play, .setCurrent 0]
    [.reset, .add stationB, .play, .setCurrent 1]
    [.reset, .reset, .add stationA, .add stationB,
     .play, .setCurrent 0, .play, .setCurrent 1]
  exact .left (.right (.left (.right (.left (.left (.right (.right .nil)))))))

/-- C8 (confirmed): `stopPlayback` is idempotent: from every starting state,
calling it twice yields exactly the state of calling it once — an idle
state with no resource held, no playback and no selection — and the second
call writes no error (the error field is untouched); the second variant is
idempotent as well. -/
theorem stopPlayback_idempotent (st : SysState) :
    stopPlayback (stopPlayback st) = stopPlayback st ∧
    (stopPlayback st).app.currentStation = none ∧
    (stopPlayback st).player.queue = [] ∧
    (stopPlayback st).player.playing = false ∧
    (stopPlayback (stopPlayback st)).app.error = (stopPlayback st).app.error ∧
    stopPlaybackV2 (stopPlaybackV2 st) = stopPlaybackV2 st := by
  exact ⟨rfl, rfl, rfl, rfl, rfl, rfl⟩

/-- C10 (confirmed): `togglePlayPause` never modifies the component state:
for every starting state and either call outcome, the station list, the
selected index, the error string — indeed the whole `AppState` — are
unchanged; only the backend player state is affected. -/
theorem togglePlayPause_frame (st : SysState) (o : CallOutcome) :
    (togglePlayPause st o).app.stations = st.app.stations ∧
    (togglePlayPause st o).app.currentStation = st.app.currentStation ∧
    (togglePlayPause st o).app.error = st.app.error ∧
    (togglePlayPause st o).app = st.app := by
  cases o with
  | fail => exact ⟨rfl, rfl, rfl, rfl⟩
  | ok =>
    by_cases hp : st.player.playing = true <;>
      simp [togglePlayPause, hp, tpPause, tpPlay]
